import Mathlib

/-!
Shallow embedding of the Zenda credit-scoring core (`calculate_credit_score`
in `src/main.py`).  Python floats are modelled as exact rationals; Python's
`round` (banker's rounding, ties to even) is `pyRound`; the partiality of
`balances[0]`, `balances[-1]` and `sum/len` on an empty list is modelled by
returning `Option Decision`.
-/

/-- Python's `round` on a rational: nearest integer, ties to even. -/
def pyRound (q : ℚ) : ℤ :=
  if q - ⌊q⌋ < 1/2 then ⌊q⌋
  else if 1/2 < q - ⌊q⌋ then ⌊q⌋ + 1
  else if 2 ∣ ⌊q⌋ then ⌊q⌋ else ⌊q⌋ + 1

/-- Python's `round(q, 2)`. -/
def pyRound2 (q : ℚ) : ℚ := (pyRound (q * 100) : ℚ) / 100

/-- Python's `round(q, 1)`. -/
def pyRound1 (q : ℚ) : ℚ := (pyRound (q * 10) : ℚ) / 10

/-- Applicant record (the scoring-relevant fields of the dicts in
`get_sample_data`; `country`, `currency`, `bank_name` are display only). -/
structure Applicant where
  balances : List ℚ
  avg_income : ℚ
  anomalous_transactions : ℕ
  risk_country : Bool
  income_stability : ℚ
  account_age_months : ℕ
deriving DecidableEq

/-- One entry of the `factors` list built by `calculate_credit_score`. -/
structure Factor where
  factor : String
  impact : ℚ
  positive : Bool
deriving DecidableEq

/-- The dict returned by `calculate_credit_score`. -/
structure Decision where
  approved : Bool
  factors : List Factor
  recommendation : String
  confidence : ℚ
  credit_limit : ℤ
deriving DecidableEq

/-- `income_stability_score = data["income_stability"] * 200` (line 135). -/
def incomeDelta (a : Applicant) : ℚ := a.income_stability * 200

/-- `balance_trend = 30 if data["balances"][0] > data["balances"][-1] else -50`
(line 144), with the empty-list failure handled by the caller. -/
def trendDelta (a : Applicant) : ℚ :=
  if a.balances.headI > a.balances.getLastI then 30 else -50

/-- `anomaly_score = max(-100, -data["anomalous_transactions"] * 30)` (line 153). -/
def anomalyDelta (a : Applicant) : ℚ :=
  max (-100) (-(a.anomalous_transactions : ℚ) * 30)

/-- `country_score = -40 if data["risk_country"] else 20` (line 162). -/
def countryDelta (a : Applicant) : ℚ :=
  if a.risk_country then -40 else 20

/-- `avg_balance = sum(data["balances"]) / len(data["balances"])` (line 171). -/
def avgBalance (a : Applicant) : ℚ :=
  a.balances.sum / (a.balances.length : ℚ)

/-- `ratio_score` (lines 172-177). -/
def savingsDelta (a : Applicant) : ℚ :=
  if avgBalance a > a.avg_income * 2 then 40
  else if avgBalance a > a.avg_income then 20
  else -20

/-- `age_score = min(30, data["account_age_months"] * 2)` (line 186). -/
def ageDelta (a : Applicant) : ℚ :=
  min 30 ((a.account_age_months : ℚ) * 2)

/-- The running `score` just before line 194: base 500 plus the six deltas,
accumulated unrounded. -/
def preScore (a : Applicant) : ℚ :=
  500 + incomeDelta a + trendDelta a + anomalyDelta a + countryDelta a +
    savingsDelta a + ageDelta a

/-- `final_score = max(300, min(850, round(score)))` (line 194). -/
def finalScore (a : Applicant) : ℤ :=
  max 300 (min 850 (pyRound (preScore a)))

/-- `approved = final_score >= 600 and data["anomalous_transactions"] <= 2`
(line 195). -/
def approvedOf (a : Applicant) : Bool :=
  decide (600 ≤ finalScore a ∧ a.anomalous_transactions ≤ 2)

/-- `credit_limit` (lines 198-203): when approved,
`round((final_score - 500) * 2 + min(avg_income * 0.3, 5000))`, else 0. -/
def creditLimitOf (a : Applicant) : ℤ :=
  if approvedOf a then
    pyRound ((((finalScore a - 500) * 2 : ℤ) : ℚ) +
      min (a.avg_income * (3/10)) 5000)
  else 0

/-- The six `factors` entries in the evaluation order of lines 137-192. -/
def factorsOf (a : Applicant) : List Factor :=
  [ ⟨"Estabilidad de Ingresos", pyRound2 (incomeDelta a),
      decide ((7:ℚ)/10 < a.income_stability)⟩,
    ⟨"Tendencia de Saldos", trendDelta a, decide (0 < trendDelta a)⟩,
    ⟨"Transacciones Sospechosas", anomalyDelta a,
      decide (a.anomalous_transactions ≤ 1)⟩,
    ⟨"Riesgo País", countryDelta a, !a.risk_country⟩,
    ⟨"Capacidad de Ahorro", savingsDelta a, decide (0 < savingsDelta a)⟩,
    ⟨"Antigüedad de Cuenta", ageDelta a, decide (12 ≤ a.account_age_months)⟩ ]

/-- `"APROBADO ✅" if approved else "RECHAZADO ❌"` (line 208). -/
def recommendationOf (a : Applicant) : String :=
  if approvedOf a then "APROBADO ✅" else "RECHAZADO ❌"

/-- `round(85 + random.random() * 10, 1)` (line 209), with the value of
`random.random()` passed in explicitly as `r`. -/
def confidenceOf (r : ℚ) : ℚ := pyRound1 (85 + r * 10)

/-- The decision dict of lines 205-211, for an applicant whose list accesses
succeeded. -/
def decOf (a : Applicant) (r : ℚ) : Decision :=
  ⟨approvedOf a, factorsOf a, recommendationOf a, confidenceOf r,
    creditLimitOf a⟩

/-- `calculate_credit_score` (lines 129-211).  On an empty `balances` the
Python code raises (`balances[0]` at line 144, and `sum/len` would divide by
zero at line 171); this is `none`. -/
def calculate_credit_score (a : Applicant) (r : ℚ) : Option Decision :=
  match a.balances.head?, a.balances.getLast? with
  | some _, some _ => some (decOf a r)
  | _, _ => none

/-- The México sample applicant from `get_sample_data` (lines 83-93). -/
def exA : Applicant :=
  ⟨[45000, 42000, 38000], 28000, 0, false, 92/100, 18⟩

/-- The reference final score transcribed from the spec wording (§4.1): base
500, plus `income_stability * 200`, plus 30 if `balances[0] > balances[-1]`
else -50, plus `max(-100, -anomalous_transactions * 30)`, plus -40 if
`risk_country` else +20, plus +40 if `mean(balances) > 2 * avg_income` else
+20 if `mean(balances) > avg_income` else -20, plus
`min(30, account_age_months * 2)`, rounded to nearest integer and clamped to
[300, 850]. -/
def refFinalScore (a : Applicant) : ℤ :=
  max 300 (min 850 (pyRound (
    500 + a.income_stability * 200
      + (if a.balances.headI > a.balances.getLastI then 30 else -50)
      + max (-100) (-(a.anomalous_transactions : ℚ) * 30)
      + (if a.risk_country then -40 else 20)
      + (if a.balances.sum / (a.balances.length : ℚ) > 2 * a.avg_income then 40
         else if a.balances.sum / (a.balances.length : ℚ) > a.avg_income then 20
         else -20)
      + min 30 ((a.account_age_months : ℚ) * 2))))

theorem le_pyRound {n : ℤ} {q : ℚ} (h : (n : ℚ) ≤ q) : n ≤ pyRound q := by
  have h1 : n ≤ ⌊q⌋ := Int.le_floor.mpr h
  unfold pyRound
  split_ifs <;> omega

theorem pyRound_le {n : ℤ} {q : ℚ} (h : q ≤ (n : ℚ)) : pyRound q ≤ n := by
  have h1 : ⌊q⌋ ≤ n := by
    have := Int.floor_mono h
    simpa using this
  have h2 : (⌊q⌋ : ℚ) ≤ q := Int.floor_le q
  unfold pyRound
  split_ifs with hc1 hc2 hc3
  · exact h1
  · have h3 : (⌊q⌋ : ℚ) + 1/2 ≤ q := by
      have := not_lt.mp hc1
      linarith
    have h4 : (⌊q⌋ : ℚ) < (n : ℚ) := by linarith
    have h5 : ⌊q⌋ < n := by exact_mod_cast h4
    omega
  · exact h1
  · have h3 : (⌊q⌋ : ℚ) + 1/2 ≤ q := by
      have := not_lt.mp hc1
      linarith
    have h4 : (⌊q⌋ : ℚ) < (n : ℚ) := by linarith
    have h5 : ⌊q⌋ < n := by exact_mod_cast h4
    omega

theorem finalScore_le (a : Applicant) : finalScore a ≤ 850 := by
  unfold finalScore
  have := min_le_left 850 (pyRound (preScore a))
  omega

theorem le_finalScore (a : Applicant) : 300 ≤ finalScore a :=
  le_max_left 300 _

theorem calc_some_eq {a : Applicant} {r : ℚ} {d : Decision}
    (h : calculate_credit_score a r = some d) : d = decOf a r := by
  unfold calculate_credit_score at h
  split at h
  · exact (Option.some.inj h).symm
  · exact Option.noConfusion h

theorem calc_eq_of_ne_nil {a : Applicant} (r : ℚ) (h : a.balances ≠ []) :
    calculate_credit_score a r = some (decOf a r) := by
  unfold calculate_credit_score
  rcases hb : a.balances.head? with _ | b0
  · exact absurd (List.head?_eq_none_iff.mp hb) h
  rcases hl : a.balances.getLast? with _ | bl
  · exact absurd (List.getLast?_eq_none_iff.mp hl) h
  rfl

/-- C1: for every applicant satisfying the §3 type constraints, the final
score of `calculate_credit_score` equals the reference definition given in
the spec (base 500, the six deltas in order, round to nearest, clamp to
[300, 850]). -/
theorem c1_final_score_matches_reference (a : Applicant)
    (hne : a.balances ≠ []) (hlo : 0 ≤ a.income_stability)
    (hhi : a.income_stability ≤ 1) :
    finalScore a = refFinalScore a := by
  unfold finalScore refFinalScore preScore incomeDelta trendDelta
    anomalyDelta countryDelta savingsDelta ageDelta avgBalance
  rw [mul_comm a.avg_income 2]

theorem c1_witness :
    exA.balances ≠ [] ∧ 0 ≤ exA.income_stability ∧
      exA.income_stability ≤ 1 ∧ finalScore exA = refFinalScore exA :=
  ⟨by simp [exA], by norm_num [exA], by norm_num [exA],
    c1_final_score_matches_reference exA (by simp [exA]) (by norm_num [exA])
      (by norm_num [exA])⟩

/-- C2: the approved flag is true iff the final score is at least 600 and
there are at most 2 anomalous transactions; a score of exactly 599 is never
approved, a score of exactly 600 with 2 anomalous transactions is approved,
and 3 or more anomalous transactions block approval regardless of score. -/
theorem c2_approval_rule (a : Applicant) (r : ℚ) (d : Decision)
    (h : calculate_credit_score a r = some d) :
    (d.approved = true ↔ 600 ≤ finalScore a ∧ a.anomalous_transactions ≤ 2) ∧
    (finalScore a = 599 → d.approved = false) ∧
    (finalScore a = 600 → a.anomalous_transactions = 2 → d.approved = true) ∧
    (3 ≤ a.anomalous_transactions → d.approved = false) := by
  have hd := calc_some_eq h
  subst hd
  simp only [decOf, approvedOf]
  refine ⟨by simp, fun h599 => ?_, fun h600 han => ?_, fun h3an => ?_⟩
  · simp only [decide_eq_false_iff_not, not_and]
    intro hge
    omega
  · simp only [decide_eq_true_eq]
    omega
  · simp only [decide_eq_false_iff_not, not_and]
    intro hge
    omega

theorem c2_witness :
    calculate_credit_score exA 0 = some (decOf exA 0) ∧
    (((decOf exA 0).approved = true ↔
        600 ≤ finalScore exA ∧ exA.anomalous_transactions ≤ 2) ∧
      (finalScore exA = 599 → (decOf exA 0).approved = false) ∧
      (finalScore exA = 600 → exA.anomalous_transactions = 2 →
        (decOf exA 0).approved = true) ∧
      (3 ≤ exA.anomalous_transactions → (decOf exA 0).approved = false)) :=
  ⟨rfl, c2_approval_rule exA 0 (decOf exA 0) rfl⟩

/-- C3: when approved, the credit limit is
round((final_score - 500) * 2 + min(avg_income * 0.3, 5000)); when not
approved it is 0; and it is never negative. -/
theorem c3_credit_limit_formula (a : Applicant) (r : ℚ) (d : Decision)
    (hpos : 0 < a.avg_income) (h : calculate_credit_score a r = some d) :
    (d.approved = true →
      d.credit_limit = pyRound ((((finalScore a - 500) * 2 : ℤ) : ℚ) +
        min (a.avg_income * (3/10)) 5000)) ∧
    (d.approved = false → d.credit_limit = 0) ∧
    0 ≤ d.credit_limit := by
  have hd := calc_some_eq h
  subst hd
  show (approvedOf a = true → creditLimitOf a = _) ∧
    (approvedOf a = false → creditLimitOf a = 0) ∧ 0 ≤ creditLimitOf a
  unfold creditLimitOf
  by_cases hap : approvedOf a
  · rw [if_pos hap]
    refine ⟨fun _ => rfl, fun hno => absurd hap (by simp [hno]), ?_⟩
    have h600 : 600 ≤ finalScore a := by
      have := of_decide_eq_true hap
      exact this.1
    have hbase : (200 : ℚ) ≤ (((finalScore a - 500) * 2 : ℤ) : ℚ) := by
      have : (200 : ℤ) ≤ (finalScore a - 500) * 2 := by omega
      exact_mod_cast this
    have hmin : (0 : ℚ) ≤ min (a.avg_income * (3/10)) 5000 := by
      apply le_min <;> nlinarith
    exact le_pyRound (by linarith)
  · rw [if_neg hap]
    exact ⟨fun htrue => absurd htrue hap, fun _ => rfl, le_refl 0⟩

theorem c3_witness :
    0 < exA.avg_income ∧
    calculate_credit_score exA 0 = some (decOf exA 0) ∧
    (((decOf exA 0).approved = true →
        (decOf exA 0).credit_limit =
          pyRound ((((finalScore exA - 500) * 2 : ℤ) : ℚ) +
            min (exA.avg_income * (3/10)) 5000)) ∧
      ((decOf exA 0).approved = false → (decOf exA 0).credit_limit = 0) ∧
      0 ≤ (decOf exA 0).credit_limit) :=
  ⟨by norm_num [exA], rfl,
    c3_credit_limit_formula exA 0 (decOf exA 0) (by norm_num [exA]) rfl⟩

/-- C4: the factors list always has exactly 6 entries, in the fixed order
income stability, balance trend, anomalous transactions, country risk,
savings capacity, account age, with each positive flag as specified (income
stability > 0.7; the +30 trend case; at most 1 anomalous transaction; not a
risk country; savings delta > 0; account age at least 12 months). -/
theorem c4_factors_structure (a : Applicant) (r : ℚ) (d : Decision)
    (h : calculate_credit_score a r = some d) :
    d.factors.length = 6 ∧
    d.factors =
      [ ⟨"Estabilidad de Ingresos", pyRound2 (a.income_stability * 200),
          decide ((7:ℚ)/10 < a.income_stability)⟩,
        ⟨"Tendencia de Saldos", trendDelta a,
          decide (a.balances.getLastI < a.balances.headI)⟩,
        ⟨"Transacciones Sospechosas", anomalyDelta a,
          decide (a.anomalous_transactions ≤ 1)⟩,
        ⟨"Riesgo País", countryDelta a, !a.risk_country⟩,
        ⟨"Capacidad de Ahorro", savingsDelta a, decide (0 < savingsDelta a)⟩,
        ⟨"Antigüedad de Cuenta", ageDelta a,
          decide (12 ≤ a.account_age_months)⟩ ] := by
  have hd := calc_some_eq h
  subst hd
  have htrend : (decide (0 < trendDelta a) : Bool) =
      decide (a.balances.getLastI < a.balances.headI) := by
    by_cases hgt : a.balances.getLastI < a.balances.headI
    · simp only [trendDelta, gt_iff_lt, if_pos hgt, hgt]
      norm_num
    · simp only [trendDelta, gt_iff_lt, if_neg hgt, hgt]
      norm_num
  show (factorsOf a).length = 6 ∧ factorsOf a = _
  unfold factorsOf incomeDelta
  rw [htrend]
  exact ⟨rfl, rfl⟩

theorem c4_witness :
    calculate_credit_score exA 0 = some (decOf exA 0) ∧
    ((decOf exA 0).factors.length = 6 ∧
      (decOf exA 0).factors =
        [ ⟨"Estabilidad de Ingresos", pyRound2 (exA.income_stability * 200),
            decide ((7:ℚ)/10 < exA.income_stability)⟩,
          ⟨"Tendencia de Saldos", trendDelta exA,
            decide (exA.balances.getLastI < exA.balances.headI)⟩,
          ⟨"Transacciones Sospechosas", anomalyDelta exA,
            decide (exA.anomalous_transactions ≤ 1)⟩,
          ⟨"Riesgo País", countryDelta exA, !exA.risk_country⟩,
          ⟨"Capacidad de Ahorro", savingsDelta exA,
            decide (0 < savingsDelta exA)⟩,
          ⟨"Antigüedad de Cuenta", ageDelta exA,
            decide (12 ≤ exA.account_age_months)⟩ ]) :=
  ⟨rfl, c4_factors_structure exA 0 (decOf exA 0) rfl⟩

/-- C5 (counterexample): drawing r = 249/250 = 0.996 from [0,1) makes the
confidence round(85 + 9.96, 1) = 95.0 exactly, which is outside [85, 95). -/
theorem c5_counterexample :
    0 ≤ (249/250 : ℚ) ∧ (249/250 : ℚ) < 1 ∧
    calculate_credit_score exA (249/250) = some (decOf exA (249/250)) ∧
    (decOf exA (249/250)).confidence = 95 ∧
    ¬ (decOf exA (249/250)).confidence < 95 := by
  refine ⟨by norm_num, by norm_num, rfl, ?_, ?_⟩ <;>
    · simp only [decOf]
      norm_num [confidenceOf, pyRound1, pyRound]

/-- C5 (amended): for every r drawn from [0,1) the confidence
round(85 + r * 10, 1) lies in the closed interval [85, 95] (it reaches 95.0
exactly when 85 + r * 10 rounds up, e.g. at r = 0.996), and confidence never
affects the approved flag or the credit limit. -/
theorem c5_confidence_range (a : Applicant) (r : ℚ) (d : Decision)
    (h0 : 0 ≤ r) (h1 : r < 1) (h : calculate_credit_score a r = some d) :
    85 ≤ d.confidence ∧ d.confidence ≤ 95 ∧
    (∀ r2 d2, calculate_credit_score a r2 = some d2 →
      d2.approved = d.approved ∧ d2.credit_limit = d.credit_limit) := by
  have hd := calc_some_eq h
  subst hd
  refine ⟨?_, ?_, ?_⟩
  · show 85 ≤ confidenceOf r
    unfold confidenceOf pyRound1
    have h850 : (850 : ℤ) ≤ pyRound ((85 + r * 10) * 10) :=
      le_pyRound (by push_cast; linarith)
    have hc : (850 : ℚ) ≤ ((pyRound ((85 + r * 10) * 10) : ℤ) : ℚ) := by
      exact_mod_cast h850
    linarith
  · show confidenceOf r ≤ 95
    unfold confidenceOf pyRound1
    have h950 : pyRound ((85 + r * 10) * 10) ≤ (950 : ℤ) :=
      pyRound_le (by push_cast; linarith)
    have hc : ((pyRound ((85 + r * 10) * 10) : ℤ) : ℚ) ≤ 950 := by
      exact_mod_cast h950
    linarith
  · intro r2 d2 h2
    have hd2 := calc_some_eq h2
    subst hd2
    exact ⟨rfl, rfl⟩

theorem c5_witness :
    (0 : ℚ) ≤ 0 ∧ (0 : ℚ) < 1 ∧
    calculate_credit_score exA 0 = some (decOf exA 0) ∧
    85 ≤ (decOf exA 0).confidence ∧ (decOf exA 0).confidence ≤ 95 :=
  ⟨le_refl 0, by norm_num, rfl,
    (c5_confidence_range exA 0 (decOf exA 0) (le_refl 0) (by norm_num)
      rfl).1,
    (c5_confidence_range exA 0 (decOf exA 0) (le_refl 0) (by norm_num)
      rfl).2.1⟩

/-- C6: two calls on an identical applicant return identical approved flags,
identical factors lists and identical credit limits; only the confidence can
differ between the runs. -/
theorem c6_deterministic_core (a : Applicant) (r1 r2 : ℚ) (d1 d2 : Decision)
    (h1 : calculate_credit_score a r1 = some d1)
    (h2 : calculate_credit_score a r2 = some d2) :
    d1.approved = d2.approved ∧ d1.factors = d2.factors ∧
    d1.credit_limit = d2.credit_limit := by
  have e1 := calc_some_eq h1
  have e2 := calc_some_eq h2
  subst e1
  subst e2
  exact ⟨rfl, rfl, rfl⟩

theorem c6_witness :
    calculate_credit_score exA 0 = some (decOf exA 0) ∧
    calculate_credit_score exA (1/2) = some (decOf exA (1/2)) ∧
    ((decOf exA 0).approved = (decOf exA (1/2)).approved ∧
      (decOf exA 0).factors = (decOf exA (1/2)).factors ∧
      (decOf exA 0).credit_limit = (decOf exA (1/2)).credit_limit) :=
  ⟨rfl, rfl,
    c6_deterministic_core exA 0 (1/2) (decOf exA 0) (decOf exA (1/2))
      rfl rfl⟩

/-- C7: whenever the balances list is non-empty, the first/last accesses
succeed, the divisor len(balances) is non-zero, and calculate_credit_score
returns a complete decision (no error branch is reachable). -/
theorem c7_total_on_nonempty (a : Applicant) (r : ℚ)
    (h : a.balances ≠ []) :
    a.balances.head?.isSome = true ∧ a.balances.getLast?.isSome = true ∧
    a.balances.length ≠ 0 ∧
    calculate_credit_score a r = some (decOf a r) := by
  obtain ⟨x, xs, hxx⟩ := List.exists_cons_of_ne_nil h
  refine ⟨?_, ?_, ?_, calc_eq_of_ne_nil r h⟩ <;> rw [hxx] <;> simp

theorem c7_witness :
    exA.balances ≠ [] ∧
    (exA.balances.head?.isSome = true ∧
      exA.balances.getLast?.isSome = true ∧
      exA.balances.length ≠ 0 ∧
      calculate_credit_score exA 0 = some (decOf exA 0)) :=
  ⟨by simp [exA], c7_total_on_nonempty exA 0 (by simp [exA])⟩

/-- An applicant with flat balances [10, 10] whose final score lands exactly
on 600 and whose credit limit rounds down to exactly 200. -/
def ex10 : Applicant := ⟨[10, 10], 1, 0, false, 2/5, 5⟩

/-- C8: when the first and last balances are equal the trend condition
balances[0] > balances[-1] is false, so the trend delta is -50 and the trend
factor is recorded as negative: flat balances are penalized like declining
ones. -/
theorem c8_flat_balances_penalized (a : Applicant) (r : ℚ) (d : Decision)
    (heq : a.balances.headI = a.balances.getLastI)
    (h : calculate_credit_score a r = some d) :
    trendDelta a = -50 ∧
    d.factors[1]? = some ⟨"Tendencia de Saldos", -50, false⟩ := by
  have hd := calc_some_eq h
  subst hd
  have ht : trendDelta a = -50 := by
    unfold trendDelta
    rw [heq, if_neg (lt_irrefl _)]
  refine ⟨ht, ?_⟩
  simp only [decOf, factorsOf, ht]
  norm_num

theorem c8_witness :
    ex10.balances.headI = ex10.balances.getLastI ∧
    calculate_credit_score ex10 0 = some (decOf ex10 0) ∧
    (trendDelta ex10 = -50 ∧
      (decOf ex10 0).factors[1]? =
        some ⟨"Tendencia de Saldos", -50, false⟩) :=
  ⟨rfl, rfl, c8_flat_balances_penalized ex10 0 (decOf ex10 0) rfl rfl⟩

/-- An applicant with income_stability = 1/3: the income delta 200/3 =
66.666... has more than two decimal places, so its recorded (rounded) impact
differs from the delta added to the score. -/
def ex9 : Applicant := ⟨[100], 50, 0, false, 1/3, 0⟩

/-- C9: the income-stability factor records round(income_stability * 200, 2)
while the running score accumulates the unrounded value; the other five
factors record exactly their deltas; and for income_stability = 1/3 the sum
of the six recorded impacts differs from the pre-clamp score minus 500. -/
theorem c9_income_impact_rounded (a : Applicant) (r : ℚ) (d : Decision)
    (h : calculate_credit_score a r = some d) :
    (d.factors.map Factor.impact =
      [pyRound2 (a.income_stability * 200), trendDelta a, anomalyDelta a,
        countryDelta a, savingsDelta a, ageDelta a] ∧
      preScore a = 500 + a.income_stability * 200 + trendDelta a +
        anomalyDelta a + countryDelta a + savingsDelta a + ageDelta a) ∧
    ((factorsOf ex9).map Factor.impact).sum ≠ preScore ex9 - 500 := by
  have hd := calc_some_eq h
  subst hd
  refine ⟨⟨rfl, rfl⟩, ?_⟩
  norm_num [factorsOf, ex9, preScore, incomeDelta, trendDelta, anomalyDelta,
    countryDelta, savingsDelta, ageDelta, avgBalance, pyRound2, pyRound,
    List.headI, List.getLastI]

theorem c9_witness :
    calculate_credit_score exA 0 = some (decOf exA 0) ∧
    (((decOf exA 0).factors.map Factor.impact =
        [pyRound2 (exA.income_stability * 200), trendDelta exA,
          anomalyDelta exA, countryDelta exA, savingsDelta exA,
          ageDelta exA] ∧
      preScore exA = 500 + exA.income_stability * 200 + trendDelta exA +
        anomalyDelta exA + countryDelta exA + savingsDelta exA +
        ageDelta exA) ∧
      ((factorsOf ex9).map Factor.impact).sum ≠ preScore ex9 - 500) :=
  ⟨rfl, c9_income_impact_rounded exA 0 (decOf exA 0) rfl⟩

/-- C10 (counterexample): ex10 has positive avg_income 1 and is approved
with final score exactly 600, yet its credit limit is
round(200 + min(0.3, 5000)) = round(200.3) = 200, not strictly greater than
200. -/
theorem c10_counterexample :
    0 < ex10.avg_income ∧
    calculate_credit_score ex10 0 = some (decOf ex10 0) ∧
    (decOf ex10 0).approved = true ∧
    (decOf ex10 0).credit_limit = 200 ∧
    ¬ 200 < (decOf ex10 0).credit_limit := by
  have hfs : finalScore ex10 = 600 := by
    norm_num [finalScore, preScore, incomeDelta, trendDelta, anomalyDelta,
      countryDelta, savingsDelta, ageDelta, avgBalance, ex10, pyRound,
      List.headI, List.getLastI]
  have happ : approvedOf ex10 = true := by
    unfold approvedOf
    rw [hfs]
    simp [ex10]
  have hcl : creditLimitOf ex10 = 200 := by
    rw [creditLimitOf, if_pos happ, hfs]
    norm_num [ex10, pyRound]
  exact ⟨by norm_num [ex10], rfl, happ, hcl, by rw [show (decOf ex10 0).credit_limit = creditLimitOf ex10 from rfl, hcl]; omega⟩

/-- C10 (amended): with non-negative avg_income, an approved applicant has
final score in [600, 850] and credit limit between 200 and 5700 inclusive
(the limit can be exactly 200 even when avg_income is positive), and a
rejected applicant has credit limit 0. -/
theorem c10_credit_limit_bounds (a : Applicant) (r : ℚ) (d : Decision)
    (hpos : 0 ≤ a.avg_income) (h : calculate_credit_score a r = some d) :
    (d.approved = true → 600 ≤ finalScore a ∧ finalScore a ≤ 850 ∧
      200 ≤ d.credit_limit ∧ d.credit_limit ≤ 5700) ∧
    (d.approved = false → d.credit_limit = 0) := by
  have hd := calc_some_eq h
  subst hd
  constructor
  · intro hap
    have hap2 : approvedOf a = true := hap
    have h6 : 600 ≤ finalScore a ∧ a.anomalous_transactions ≤ 2 :=
      of_decide_eq_true hap2
    refine ⟨h6.1, finalScore_le a, ?_, ?_⟩
    · show 200 ≤ creditLimitOf a
      rw [creditLimitOf, if_pos hap2]
      apply le_pyRound
      have hb : (200 : ℤ) ≤ (finalScore a - 500) * 2 := by
        have := h6.1
        omega
      have hbq : (200 : ℚ) ≤ (((finalScore a - 500) * 2 : ℤ) : ℚ) := by
        exact_mod_cast hb
      have hm : (0 : ℚ) ≤ min (a.avg_income * (3/10)) 5000 :=
        le_min (by nlinarith) (by norm_num)
      push_cast
      push_cast at hbq
      linarith
    · show creditLimitOf a ≤ 5700
      rw [creditLimitOf, if_pos hap2]
      apply pyRound_le
      have hb : (finalScore a - 500) * 2 ≤ (700 : ℤ) := by
        have := finalScore_le a
        omega
      have hbq : (((finalScore a - 500) * 2 : ℤ) : ℚ) ≤ 700 := by
        exact_mod_cast hb
      have hm : min (a.avg_income * (3/10)) 5000 ≤ 5000 := min_le_right _ _
      push_cast
      push_cast at hbq
      linarith
  · intro hap
    have hap2 : approvedOf a = false := hap
    show creditLimitOf a = 0
    rw [creditLimitOf, if_neg (by simp [hap2])]

theorem c10_witness :
    (0 : ℚ) ≤ exA.avg_income ∧
    calculate_credit_score exA 0 = some (decOf exA 0) ∧
    (((decOf exA 0).approved = true → 600 ≤ finalScore exA ∧
        finalScore exA ≤ 850 ∧ 200 ≤ (decOf exA 0).credit_limit ∧
        (decOf exA 0).credit_limit ≤ 5700) ∧
      ((decOf exA 0).approved = false → (decOf exA 0).credit_limit = 0)) :=
  ⟨by norm_num [exA], rfl,
    c10_credit_limit_bounds exA 0 (decOf exA 0) (by norm_num [exA]) rfl⟩
